import Mathlib

/-!
# QCefClientHandlerDelegate

A shallow embedding of `src/widgets/qcef_client_handler_delegate.cpp`, the
delegate that turns browser-engine callbacks into calls on one `QCefWebPage`.

Conventions of the embedding

* The members `cef_browser_` and `context_menu_` are pointers that may be null:
  they are `Option` fields of the adapter state.  `web_page_` points to an
  object the adapter does not own; every operation takes the page as it is at
  the time of the callback as the explicit argument `web_page_`.
* Calls made on the page (methods and emitted signals), the invocation of a menu
  callback and the engine call `CefAddCrossOriginWhitelistEntry` are recorded, in
  program order, in a list of `Effect`.  Getters of the page
  (`getEventDelegate`, `settings`, `pageErrorContent`) are reads of its fields.
* A method whose body dereferences a pointer without a null test returns
  `Option`: `none` stands for the dereference of a null pointer, after which the
  callback does not return normally.
* `qDebug` / `qWarning` / `qCritical` output changes neither state, result nor
  calls on the page and is left out.
* The message names of `core/qcef_web_channel_consts.h`, the JSON reader
  `QJsonDocument::fromJson` and the results of the Event Delegate are inputs.
* `OnFaviconURLChange` and the destructor are not embedded; no property stated
  below depends on them.
-/

namespace QCef

/-! ## Engine-side values -/

/-- A frame of the engine, as far as the adapter looks at it: `GetIdentifier()`. -/
structure CefFrame where
  identifier : Int
  deriving DecidableEq

/-- A browser session of the engine: `GetIdentifier()` and `GetMainFrame()`. -/
structure CefBrowser where
  identifier : Int
  mainFrame : CefFrame
  deriving DecidableEq

/-- A value stored in a `CefListValue` or `CefDictionaryValue`. -/
inductive CefValue where
  | null
  | bool (b : Bool)
  | int (i : Int)
  | string (s : String)
  | dictionary (entries : List (String × CefValue))
  | list (items : List CefValue)

/-- The `CefDictionaryValue` behind a dictionary-typed value. -/
abbrev CefDictionaryValue := List (String × CefValue)

/-- The argument list of a process message. -/
abbrev CefListValue := List CefValue

/-- Engine accessor `CefListValue::GetSize`. -/
def CefListValue.GetSize (args : CefListValue) : Nat :=
  args.length

/-- Engine accessor `CefListValue::GetString(index)`: the string stored at the index, and the
empty string when the index is out of range or the value there is not a string. -/
def CefListValue.GetString (args : CefListValue) (index : Nat) : String :=
  match args.get? index with
  | some (CefValue.string s) => s
  | _ => ""

/-- Engine accessor `CefListValue::GetDictionary(index)`: the dictionary stored at the index, and a
null reference (`none`) when the index is out of range or the value there is not a dictionary. -/
def CefListValue.GetDictionary (args : CefListValue) (index : Nat) : Option CefDictionaryValue :=
  match args.get? index with
  | some (CefValue.dictionary d) => some d
  | _ => none

/-- A process message: `GetName()` and `GetArgumentList()`. -/
structure CefProcessMessage where
  name : String
  args : CefListValue

/-- The four message names declared in `core/qcef_web_channel_consts.h`. -/
structure ChannelConsts where
  kQCefRenderContextCreated : String
  kQCefRenderContextReleased : String
  kQCefRenderQtMessage : String
  kQCefWebNotificationBody : String

/-- The parameters handed over with a context-menu request. -/
structure CefContextMenuParams where
  xCoord : Int
  yCoord : Int
  linkUrl : String
  deriving DecidableEq

/-- One entry of the engine's native menu model. -/
inductive CefMenuEntry where
  | separator
  | item (command_id : Int) (label : String)
  deriving DecidableEq

/-- The engine's native menu model, as the sequence of its entries. -/
abbrev CefMenuModel := List CefMenuEntry

/-- Engine call `CefMenuModel::Clear`. -/
def CefMenuModel.Clear (_model : CefMenuModel) : CefMenuModel :=
  []

/-- Engine call `CefMenuModel::AddSeparator`. -/
def CefMenuModel.AddSeparator (model : CefMenuModel) : CefMenuModel :=
  model ++ [CefMenuEntry.separator]

/-- Engine call `CefMenuModel::AddItem(command_id, label)`. -/
def CefMenuModel.AddItem (model : CefMenuModel) (command_id : Int) (label : String) :
    CefMenuModel :=
  model ++ [CefMenuEntry.item command_id label]

/-! ## Toolkit-side values -/

/-- A `QJsonObject`; the adapter hands it on without looking inside. -/
structure QJsonObject where
  members : List (String × String)
  deriving DecidableEq

/-- The outcome of `QJsonDocument::fromJson`: a null document for text that is
not JSON, an array document, or an object document. -/
inductive QJsonDocument where
  | null
  | array (elements : List String)
  | object (o : QJsonObject)
  deriving DecidableEq

/-- Qt accessor `QJsonDocument::isObject`. -/
def QJsonDocument.isObject : QJsonDocument → Bool
  | QJsonDocument.object _ => true
  | _ => false

/-- Qt accessor `QJsonDocument::object`: the object of an object document, an empty object otherwise. -/
def QJsonDocument.toObject : QJsonDocument → QJsonObject
  | QJsonDocument.object o => o
  | _ => ⟨[]⟩

/-- A key event of the toolkit. -/
structure QKeyEvent where
  key : Int
  modifiers : Int
  deriving DecidableEq

/-- A `QUrl` of the settings, through the accessors the adapter uses. -/
structure QUrl where
  text : String
  scheme : String
  host : String
  deriving DecidableEq

/-- One entry `QCefWebSettings::CrossOriginEntry` of the allow-list. -/
structure CrossOriginEntry where
  source : QUrl
  target : QUrl
  deriving DecidableEq

/-- A menu callback `std::function<void(QCefWebPage*)>`, known by a tag; its body is host code. -/
structure Callback where
  tag : String
  deriving DecidableEq

/-! ## The context-menu object -/

/-- Modelled from the spec: the enum of `widgets/qcef_context_menu.h` (not among the sources);
an entry is a separator or an item. -/
inductive ItemType where
  | Separator
  | Item
  deriving DecidableEq

/-- Modelled from the spec: the entry record of `widgets/qcef_context_menu.h` (not among the
sources): kind, numeric command id, label. -/
structure MenuItem where
  type : ItemType
  id : Int
  label : String
  deriving DecidableEq

/-- Modelled from the spec: the class `QCefContextMenu` (not among the sources) holds an ordered
sequence of entries and a mapping from command id to callback.  The mapping is kept as an
association list with at most one pair per id. -/
structure QCefContextMenu where
  items : List MenuItem
  callbacks : List (Int × Callback)
  deriving DecidableEq

/-- Qt lookup `QMap::contains`. -/
def QMap.contains (m : List (Int × Callback)) (key : Int) : Bool :=
  (m.lookup key).isSome

/-- Qt lookup `QMap::value`: the stored value, a default-constructed one when the key is absent. -/
def QMap.value (m : List (Int × Callback)) (key : Int) : Callback :=
  (m.lookup key).getD ⟨""⟩

/-- Qt update `QMap::insert`: the new value replaces the one stored under the same key. -/
def QMap.insert (m : List (Int × Callback)) (key : Int) (value : Callback) :
    List (Int × Callback) :=
  (key, value) :: m.filter (fun kv => kv.1 != key)

/-- Modelled from the spec: `new QCefContextMenu()` (constructor not among the sources), a menu
without entries and without callbacks. -/
def QCefContextMenu.new : QCefContextMenu :=
  { items := [], callbacks := [] }

/-- Modelled from the spec: `QCefContextMenu::clear` (not among the sources) empties the entry
sequence and the id-to-callback mapping; the object itself stays. -/
def QCefContextMenu.clear (_menu : QCefContextMenu) : QCefContextMenu :=
  { items := [], callbacks := [] }

/-- Modelled from the spec: `QCefContextMenu::addItem` (not among the sources) appends an item
entry and registers its callback under the command id. -/
def QCefContextMenu.addItem (menu : QCefContextMenu) (id : Int) (label : String)
    (callback : Callback) : QCefContextMenu :=
  { items := menu.items ++ [{ type := ItemType.Item, id := id, label := label }],
    callbacks := QMap.insert menu.callbacks id callback }

/-- Modelled from the spec: `QCefContextMenu::addSeparator` (not among the sources) appends a
separator entry; its id and label are never read by the adapter. -/
def QCefContextMenu.addSeparator (menu : QCefContextMenu) : QCefContextMenu :=
  { menu with items := menu.items ++ [{ type := ItemType.Separator, id := 0, label := "" }] }

/-- One call an Event Delegate makes on the context-menu object it is handed. -/
inductive MenuOp where
  | addItem (id : Int) (label : String) (callback : Callback)
  | addSeparator
  | clear
  deriving DecidableEq

/-- Apply one call of the delegate to the context-menu object. -/
def MenuOp.apply (menu : QCefContextMenu) : MenuOp → QCefContextMenu
  | MenuOp.addItem id label callback => menu.addItem id label callback
  | MenuOp.addSeparator => menu.addSeparator
  | MenuOp.clear => menu.clear

/-- Apply the calls of the delegate, in order. -/
def populate (menu : QCefContextMenu) (ops : List MenuOp) : QCefContextMenu :=
  ops.foldl MenuOp.apply menu

/-- The command ids a sequence of delegate calls registers a callback for. -/
def registeredIds : List MenuOp → List Int
  | [] => []
  | MenuOp.addItem id _ _ :: rest => id :: registeredIds rest
  | _ :: rest => registeredIds rest

/-! ## The page and the Event Delegate -/

/-- The Event Delegate `QCefBrowserEventDelegate`: what each of its four methods answers.
`onBeforeContextMenu` answers with the calls it makes on the context-menu object. -/
structure QCefBrowserEventDelegate where
  onBeforePopup : String → Int → Bool
  onBeforeBrowse : String → Bool → Bool
  onPreKeyEvent : QKeyEvent → Bool
  onBeforeContextMenu : CefContextMenuParams → List MenuOp

/-- The page object `QCefWebPage` as the adapter reads it: its identity, its optional Event
Delegate, the error page body and the allow-list of its settings. -/
structure QCefWebPage where
  address : Nat
  getEventDelegate : Option QCefBrowserEventDelegate
  pageErrorContent : String
  crossOriginWhiteList : List CrossOriginEntry

/-- What a callback of the adapter does to the outside: a method called or a signal emitted on
`web_page_`, a menu callback run on the page at the given address, or an entry added to the
engine's cross-origin list. -/
inductive Effect where
  | createTransportChannel
  | releaseTransportChannel
  | handleWebMessage (o : QJsonObject)
  | renderContextCreated
  | loadStarted
  | loadingStateChanged (is_loading can_go_back can_go_forward : Bool)
  | loadFinished (ok : Bool)
  | onBrowserGotFocus
  | fullscreenRequested (fullscreen : Bool)
  | updateTitle (title : String)
  | updateUrl (url : String)
  | callback (cb : Callback) (page : Nat)
  | CefAddCrossOriginWhitelistEntry (source scheme host : String) (allow_subdomains : Bool)
  deriving DecidableEq

/-- The members of `QCefClientHandlerDelegate` that change: the tracked engine handle and the
context-menu object, each possibly null. -/
structure QCefClientHandlerDelegate where
  cef_browser_ : Option CefBrowser
  context_menu_ : Option QCefContextMenu
  deriving DecidableEq

/-! ## The callbacks of the adapter -/

/-- Callback `QCefClientHandlerDelegate::OnBeforePopup`.  With a tracked handle the delegate
pointer is dereferenced without a null test. -/
def OnBeforePopup (self : QCefClientHandlerDelegate) (web_page_ : QCefWebPage)
    (target_url : String) (target_disposition : Int) : Option Bool :=
  if self.cef_browser_ ≠ none then
    match web_page_.getEventDelegate with
    | some event_delegate => some (event_delegate.onBeforePopup target_url target_disposition)
    | none => none
  else
    some true

/-- Callback `QCefClientHandlerDelegate::OnBrowserCreated`: adopt the handle when none is
tracked, then register every allow-list entry with the engine. -/
def OnBrowserCreated (self : QCefClientHandlerDelegate) (web_page_ : QCefWebPage)
    (browser : CefBrowser) : QCefClientHandlerDelegate × List Effect :=
  let self1 := if self.cef_browser_ = none then { self with cef_browser_ := some browser } else self
  (self1, web_page_.crossOriginWhiteList.map (fun entry =>
    Effect.CefAddCrossOriginWhitelistEntry entry.source.text entry.target.scheme
      entry.target.host true))

/-- Callback `QCefClientHandlerDelegate::OnBeforeClose`.  The tracked handle is dereferenced
without a null test. -/
def OnBeforeClose (self : QCefClientHandlerDelegate) (browser : CefBrowser) :
    Option QCefClientHandlerDelegate :=
  match self.cef_browser_ with
  | none => none
  | some tracked =>
    if tracked.identifier = browser.identifier then
      some { self with cef_browser_ := none }
    else
      some self

/-- Callback `QCefClientHandlerDelegate::OnGotFocus`. -/
def OnGotFocus (self : QCefClientHandlerDelegate) (browser : CefBrowser) : List Effect :=
  match self.cef_browser_ with
  | some tracked =>
    if browser.identifier = tracked.identifier then [Effect.onBrowserGotFocus] else []
  | none => []

/-- Callback `QCefClientHandlerDelegate::OnLoadStarted`. -/
def OnLoadStarted (self : QCefClientHandlerDelegate) (browser : CefBrowser) (frame : CefFrame) :
    List Effect :=
  match self.cef_browser_ with
  | some tracked =>
    if browser.identifier = tracked.identifier ∧
        browser.mainFrame.identifier = frame.identifier then
      [Effect.loadStarted]
    else []
  | none => []

/-- Callback `QCefClientHandlerDelegate::OnLoadingStateChange`. -/
def OnLoadingStateChange (self : QCefClientHandlerDelegate) (browser : CefBrowser)
    (is_loading can_go_back can_go_forward : Bool) : List Effect :=
  match self.cef_browser_ with
  | some tracked =>
    if browser.identifier = tracked.identifier then
      [Effect.loadingStateChanged is_loading can_go_back can_go_forward]
    else []
  | none => []

/-- Callback `QCefClientHandlerDelegate::OnLoadEnd`; the status code is unused. -/
def OnLoadEnd (self : QCefClientHandlerDelegate) (browser : CefBrowser) (frame : CefFrame)
    (_httpStatusCode : Int) : List Effect :=
  match self.cef_browser_ with
  | some tracked =>
    if browser.identifier = tracked.identifier ∧
        browser.mainFrame.identifier = frame.identifier then
      [Effect.loadFinished true]
    else []
  | none => []

/-- Callback `QCefClientHandlerDelegate::OnLoadError`; the error code is unused.  Returns the
page's error body together with what was emitted. -/
def OnLoadError (self : QCefClientHandlerDelegate) (web_page_ : QCefWebPage)
    (browser : CefBrowser) (frame : CefFrame) (_errorCode : Int) : String × List Effect :=
  let emitted :=
    match self.cef_browser_ with
    | some tracked =>
      if browser.identifier = tracked.identifier ∧
          browser.mainFrame.identifier = frame.identifier then
        [Effect.loadFinished false]
      else []
    | none => []
  (web_page_.pageErrorContent, emitted)

/-- The guard that opens `OnProcessMessageReceived`: a handle is tracked and the message comes
from a session with another identifier. -/
def foreignSession (self : QCefClientHandlerDelegate) (browser : CefBrowser) : Bool :=
  match self.cef_browser_ with
  | some tracked => browser.identifier != tracked.identifier
  | none => false

/-- Callback `QCefClientHandlerDelegate::OnProcessMessageReceived`: the handled flag and the
calls made on the page.  `none` is the dereference of the null dictionary reference that
`GetDictionary(2)` yields for a third argument that is not a dictionary. -/
def OnProcessMessageReceived (k : ChannelConsts) (fromJson : String → QJsonDocument)
    (self : QCefClientHandlerDelegate) (browser : CefBrowser) (message : CefProcessMessage) :
    Option (Bool × List Effect) :=
  if foreignSession self browser then
    some (false, [])
  else
    let name := message.name
    if name = k.kQCefRenderContextCreated then
      some (true, [Effect.createTransportChannel, Effect.renderContextCreated])
    else if name = k.kQCefRenderContextReleased then
      some (true, [Effect.releaseTransportChannel])
    else if name = k.kQCefRenderQtMessage then
      let args := message.args
      if args.GetSize ≠ 1 then
        some (false, [])
      else
        let msg := args.GetString 0
        let doc := fromJson msg
        if doc.isObject then
          some (true, [Effect.handleWebMessage doc.toObject])
        else
          some (true, [])
    else if name = k.kQCefWebNotificationBody then
      let args := message.args
      if args.GetSize < 2 then
        some (false, [])
      else if args.GetSize > 2 then
        match args.GetDictionary 2 with
        | some _dict => some (true, [])
        | none => none
      else
        some (true, [])
    else
      some (false, [])

/-- Callback `QCefClientHandlerDelegate::OnSetFullscreen`. -/
def OnSetFullscreen (fullscreen : Bool) : List Effect :=
  [Effect.fullscreenRequested fullscreen]

/-- Callback `QCefClientHandlerDelegate::OnTitleChanged`. -/
def OnTitleChanged (title : String) : List Effect :=
  [Effect.updateTitle title]

/-- Callback `QCefClientHandlerDelegate::OnUrlChanged`. -/
def OnUrlChanged (url : String) : List Effect :=
  [Effect.updateUrl url]

/-- Callback `QCefClientHandlerDelegate::OnPreKeyEvent`. -/
def OnPreKeyEvent (web_page_ : QCefWebPage) (event : QKeyEvent) : Bool :=
  match web_page_.getEventDelegate with
  | some event_delegate => event_delegate.onPreKeyEvent event
  | none => false

/-- Callback `QCefClientHandlerDelegate::OnBeforeBrowse`. -/
def OnBeforeBrowse (web_page_ : QCefWebPage) (url : String) (is_redirect : Bool) : Bool :=
  match web_page_.getEventDelegate with
  | some event_delegate => event_delegate.onBeforeBrowse url is_redirect
  | none => false

/-- The body of the loop of `OnBeforeContextMenu`: one entry of the context-menu object added
to the native model.  The two kinds of entry exhaust the enum, so the `default` arm of the switch,
which adds nothing, covers no case. -/
def addNative (model : CefMenuModel) (item : MenuItem) : CefMenuModel :=
  match item.type with
  | ItemType.Separator => model.AddSeparator
  | ItemType.Item => model.AddItem item.id item.label

/-- Callback `QCefClientHandlerDelegate::OnBeforeContextMenu`: the adapter state and the native
menu model afterwards. -/
def OnBeforeContextMenu (self : QCefClientHandlerDelegate) (web_page_ : QCefWebPage)
    (params : CefContextMenuParams) (model : CefMenuModel) :
    QCefClientHandlerDelegate × CefMenuModel :=
  match web_page_.getEventDelegate with
  | some event_delegate =>
    let menu0 :=
      match self.context_menu_ with
      | none => QCefContextMenu.new
      | some menu => menu
    let menu1 := menu0.clear
    let menu2 := populate menu1 (event_delegate.onBeforeContextMenu params)
    let model1 := model.Clear
    ({ self with context_menu_ := some menu2 }, menu2.items.foldl addNative model1)
  | none => (self, model)

/-- Callback `QCefClientHandlerDelegate::OnContextMenuCommand`: the handled flag and the
callback run, if any. -/
def OnContextMenuCommand (self : QCefClientHandlerDelegate) (web_page_ : QCefWebPage)
    (command_id : Int) : Bool × List Effect :=
  match self.context_menu_ with
  | some menu =>
    if QMap.contains menu.callbacks command_id then
      (true, [Effect.callback (QMap.value menu.callbacks command_id) web_page_.address])
    else
      (false, [])
  | none => (false, [])

/-! ## Sample values -/

/-- Four pairwise distinct message names. -/
def sampleConsts : ChannelConsts :=
  { kQCefRenderContextCreated := "QCefRenderContextCreated",
    kQCefRenderContextReleased := "QCefRenderContextReleased",
    kQCefRenderQtMessage := "QCefRenderQtMessage",
    kQCefWebNotificationBody := "QCefWebNotificationBody" }

/-- A JSON reader that knows the empty object and the empty array. -/
def sampleFromJson (text : String) : QJsonDocument :=
  if text = "\x7b\x7d" then QJsonDocument.object ⟨[]⟩
  else if text = "[]" then QJsonDocument.array []
  else QJsonDocument.null

/-- Session A. -/
def browserA : CefBrowser :=
  { identifier := 1, mainFrame := { identifier := 10 } }

/-- Session B. -/
def browserB : CefBrowser :=
  { identifier := 2, mainFrame := { identifier := 20 } }

/-- An adapter that tracks nothing and has no context-menu object. -/
def freshAdapter : QCefClientHandlerDelegate :=
  { cef_browser_ := none, context_menu_ := none }

/-- An adapter that tracks session A. -/
def adapterTrackingA : QCefClientHandlerDelegate :=
  { cef_browser_ := some browserA, context_menu_ := none }

/-- A page without Event Delegate. -/
def pageWithoutDelegate : QCefWebPage :=
  { address := 7, getEventDelegate := none, pageErrorContent := "load failed",
    crossOriginWhiteList := [] }

/-- The calls of a delegate that offers Copy, a separator and Paste. -/
def copyPasteOps : List MenuOp :=
  [MenuOp.addItem 1 "Copy" ⟨"Copy"⟩, MenuOp.addSeparator, MenuOp.addItem 2 "Paste" ⟨"Paste"⟩]

/-- An Event Delegate that intercepts nothing and offers Copy, a separator and Paste. -/
def copyPasteDelegate : QCefBrowserEventDelegate :=
  { onBeforePopup := fun _ _ => false,
    onBeforeBrowse := fun _ _ => false,
    onPreKeyEvent := fun _ => false,
    onBeforeContextMenu := fun _ => copyPasteOps }

/-- An Event Delegate that intercepts nothing and offers Paste only. -/
def pasteOnlyDelegate : QCefBrowserEventDelegate :=
  { onBeforePopup := fun _ _ => false,
    onBeforeBrowse := fun _ _ => false,
    onPreKeyEvent := fun _ => false,
    onBeforeContextMenu := fun _ => [MenuOp.addItem 2 "Paste" ⟨"Paste"⟩] }

/-- The same page with the Copy/Paste delegate installed. -/
def pageWithDelegate : QCefWebPage :=
  { address := 7, getEventDelegate := some copyPasteDelegate, pageErrorContent := "load failed",
    crossOriginWhiteList := [] }

/-- Some context-menu parameters. -/
def sampleParams : CefContextMenuParams :=
  { xCoord := 3, yCoord := 4, linkUrl := "" }

/-- The native entry the spec assigns to an entry of the context-menu object: a separator for a
separator, an item with the same command id and label for an item. -/
def nativeImage (item : MenuItem) : CefMenuEntry :=
  if item.type = ItemType.Separator then CefMenuEntry.separator
  else CefMenuEntry.item item.id item.label

/-! ## Auxiliary facts -/

theorem foreignSession_same (self : QCefClientHandlerDelegate) (tracked browser : CefBrowser)
    (hTracked : self.cef_browser_ = some tracked)
    (hSame : browser.identifier = tracked.identifier) :
    foreignSession self browser = false := by
  simp [foreignSession, hTracked, hSame]

theorem foreignSession_other (self : QCefClientHandlerDelegate) (tracked browser : CefBrowser)
    (hTracked : self.cef_browser_ = some tracked)
    (hOther : browser.identifier ≠ tracked.identifier) :
    foreignSession self browser = true := by
  simp [foreignSession, hTracked, hOther]

/-- The generic-envelope branch of `OnProcessMessageReceived`, reached from the tracked session. -/
theorem envelope_branch (k : ChannelConsts) (fromJson : String → QJsonDocument)
    (self : QCefClientHandlerDelegate) (tracked browser : CefBrowser)
    (message : CefProcessMessage)
    (hTracked : self.cef_browser_ = some tracked)
    (hSame : browser.identifier = tracked.identifier)
    (hName : message.name = k.kQCefRenderQtMessage)
    (hCreated : k.kQCefRenderQtMessage ≠ k.kQCefRenderContextCreated)
    (hReleased : k.kQCefRenderQtMessage ≠ k.kQCefRenderContextReleased) :
    OnProcessMessageReceived k fromJson self browser message =
      if message.args.GetSize ≠ 1 then some (false, [])
      else if (fromJson (message.args.GetString 0)).isObject then
        some (true, [Effect.handleWebMessage (fromJson (message.args.GetString 0)).toObject])
      else some (true, []) := by
  simp only [OnProcessMessageReceived, foreignSession_same self tracked browser hTracked hSame,
    hName, if_neg hCreated, if_neg hReleased, if_true, Bool.false_eq_true, if_false]

/-- The web-notification branch of `OnProcessMessageReceived`, reached from the tracked session. -/
theorem notification_branch (k : ChannelConsts) (fromJson : String → QJsonDocument)
    (self : QCefClientHandlerDelegate) (tracked browser : CefBrowser)
    (message : CefProcessMessage)
    (hTracked : self.cef_browser_ = some tracked)
    (hSame : browser.identifier = tracked.identifier)
    (hName : message.name = k.kQCefWebNotificationBody)
    (hCreated : k.kQCefWebNotificationBody ≠ k.kQCefRenderContextCreated)
    (hReleased : k.kQCefWebNotificationBody ≠ k.kQCefRenderContextReleased)
    (hEnvelope : k.kQCefWebNotificationBody ≠ k.kQCefRenderQtMessage) :
    OnProcessMessageReceived k fromJson self browser message =
      if message.args.GetSize < 2 then some (false, [])
      else if message.args.GetSize > 2 then
        match message.args.GetDictionary 2 with
        | some _ => some (true, [])
        | none => none
      else some (true, []) := by
  simp only [OnProcessMessageReceived, foreignSession_same self tracked browser hTracked hSame,
    hName, if_neg hCreated, if_neg hReleased, if_neg hEnvelope, if_true, Bool.false_eq_true,
    if_false]

/-! ## Inter-process messages -/

/-- C1: a generic-envelope message from the tracked session reaches `handleWebMessage` exactly
when it has one argument and that argument reads as a JSON object; the call then carries the
decoded object and is the only call made. With any other argument count or payload no
`handleWebMessage` call is made. -/
theorem C1_envelope_forwarded_iff_single_json_object
    (k : ChannelConsts) (fromJson : String → QJsonDocument)
    (self : QCefClientHandlerDelegate) (tracked browser : CefBrowser)
    (message : CefProcessMessage)
    (hTracked : self.cef_browser_ = some tracked)
    (hSame : browser.identifier = tracked.identifier)
    (hName : message.name = k.kQCefRenderQtMessage)
    (hCreated : k.kQCefRenderQtMessage ≠ k.kQCefRenderContextCreated)
    (hReleased : k.kQCefRenderQtMessage ≠ k.kQCefRenderContextReleased) :
    ∃ handled calls,
      OnProcessMessageReceived k fromJson self browser message = some (handled, calls) ∧
      ((∃ o, Effect.handleWebMessage o ∈ calls) ↔
        (message.args.GetSize = 1 ∧
          ∃ o, fromJson (message.args.GetString 0) = QJsonDocument.object o)) ∧
      (∀ o, message.args.GetSize = 1 →
        fromJson (message.args.GetString 0) = QJsonDocument.object o →
        calls = [Effect.handleWebMessage o]) := by
  rw [envelope_branch k fromJson self tracked browser message hTracked hSame hName hCreated
    hReleased]
  by_cases hSize : message.args.GetSize = 1
  · cases hDoc : fromJson (message.args.GetString 0) with
    | null => exact ⟨true, [], by simp [hSize, hDoc, QJsonDocument.isObject]⟩
    | array elements => exact ⟨true, [], by simp [hSize, hDoc, QJsonDocument.isObject]⟩
    | object o =>
      exact ⟨true, [Effect.handleWebMessage o],
        by simp [hSize, hDoc, QJsonDocument.isObject, QJsonDocument.toObject]⟩
  · exact ⟨false, [], by simp [hSize]⟩

/-- Witness of C1: the tracked session A sends the envelope with the single argument "\x7b\x7d". -/
theorem C1_envelope_forwarded_witness :
    ∃ handled calls,
      OnProcessMessageReceived sampleConsts sampleFromJson adapterTrackingA browserA
        ⟨"QCefRenderQtMessage", [CefValue.string "\x7b\x7d"]⟩ = some (handled, calls) ∧
      ((∃ o, Effect.handleWebMessage o ∈ calls) ↔
        (CefListValue.GetSize [CefValue.string "\x7b\x7d"] = 1 ∧
          ∃ o, sampleFromJson (CefListValue.GetString [CefValue.string "\x7b\x7d"] 0) =
            QJsonDocument.object o)) ∧
      (∀ o, CefListValue.GetSize [CefValue.string "\x7b\x7d"] = 1 →
        sampleFromJson (CefListValue.GetString [CefValue.string "\x7b\x7d"] 0) =
          QJsonDocument.object o →
        calls = [Effect.handleWebMessage o]) :=
  C1_envelope_forwarded_iff_single_json_object sampleConsts sampleFromJson adapterTrackingA
    browserA browserA ⟨"QCefRenderQtMessage", [CefValue.string "\x7b\x7d"]⟩ rfl rfl rfl
    (by decide) (by decide)

/-- C2, as stated, fails: the tracked session A sends the envelope with the single argument
"oops", which is not a JSON object; nothing is forwarded, yet the handled flag is true. -/
theorem C2_counterexample_invalid_json_is_handled :
    CefListValue.GetSize [CefValue.string "oops"] = 1 ∧
    (sampleFromJson (CefListValue.GetString [CefValue.string "oops"] 0)).isObject = false ∧
    OnProcessMessageReceived sampleConsts sampleFromJson adapterTrackingA browserA
      ⟨"QCefRenderQtMessage", [CefValue.string "oops"]⟩ = some (true, []) := by
  decide

/-- C2, amended: a generic-envelope message from the tracked session is rejected (false, nothing
forwarded) exactly when its argument count is not 1; with one argument that does not read as a
JSON object nothing is forwarded and the handled flag is true. -/
theorem C2_envelope_rejected_on_wrong_count
    (k : ChannelConsts) (fromJson : String → QJsonDocument)
    (self : QCefClientHandlerDelegate) (tracked browser : CefBrowser)
    (message : CefProcessMessage)
    (hTracked : self.cef_browser_ = some tracked)
    (hSame : browser.identifier = tracked.identifier)
    (hName : message.name = k.kQCefRenderQtMessage)
    (hCreated : k.kQCefRenderQtMessage ≠ k.kQCefRenderContextCreated)
    (hReleased : k.kQCefRenderQtMessage ≠ k.kQCefRenderContextReleased) :
    (message.args.GetSize ≠ 1 →
      OnProcessMessageReceived k fromJson self browser message = some (false, [])) ∧
    (message.args.GetSize = 1 →
      ∃ calls, OnProcessMessageReceived k fromJson self browser message = some (true, calls)) ∧
    (message.args.GetSize = 1 →
      (fromJson (message.args.GetString 0)).isObject = false →
      OnProcessMessageReceived k fromJson self browser message = some (true, [])) := by
  rw [envelope_branch k fromJson self tracked browser message hTracked hSame hName hCreated
    hReleased]
  refine ⟨fun hSize => by simp [hSize], fun hSize => ?_, fun hSize hDoc => by simp [hSize, hDoc]⟩
  by_cases hDoc : (fromJson (message.args.GetString 0)).isObject = true
  · exact ⟨[Effect.handleWebMessage (fromJson (message.args.GetString 0)).toObject],
      by simp [hSize, hDoc]⟩
  · exact ⟨[], by simp [hSize, hDoc]⟩

/-- Witness of the amended C2: the tracked session A sends the envelope without arguments. -/
theorem C2_envelope_rejected_witness :
    (CefListValue.GetSize [] ≠ 1 →
      OnProcessMessageReceived sampleConsts sampleFromJson adapterTrackingA browserA
        ⟨"QCefRenderQtMessage", []⟩ = some (false, [])) ∧
    (CefListValue.GetSize [] = 1 →
      ∃ calls, OnProcessMessageReceived sampleConsts sampleFromJson adapterTrackingA browserA
        ⟨"QCefRenderQtMessage", []⟩ = some (true, calls)) ∧
    (CefListValue.GetSize [] = 1 →
      (sampleFromJson (CefListValue.GetString [] 0)).isObject = false →
      OnProcessMessageReceived sampleConsts sampleFromJson adapterTrackingA browserA
        ⟨"QCefRenderQtMessage", []⟩ = some (true, [])) :=
  C2_envelope_rejected_on_wrong_count sampleConsts sampleFromJson adapterTrackingA
    browserA browserA ⟨"QCefRenderQtMessage", []⟩ rfl rfl rfl (by decide) (by decide)

/-- C3, where the code departs from it: a web-notification message from the tracked session with
fewer than 2 arguments is answered false and one with exactly 2 arguments true, but with more than
2 arguments the answer is true only if the third argument is a dictionary; otherwise the null
reference returned by `GetDictionary(2)` is dereferenced and the callback does not return. -/
theorem C3_notification_third_argument_not_dictionary
    (k : ChannelConsts) (fromJson : String → QJsonDocument)
    (self : QCefClientHandlerDelegate) (tracked browser : CefBrowser)
    (message : CefProcessMessage)
    (hTracked : self.cef_browser_ = some tracked)
    (hSame : browser.identifier = tracked.identifier)
    (hName : message.name = k.kQCefWebNotificationBody)
    (hCreated : k.kQCefWebNotificationBody ≠ k.kQCefRenderContextCreated)
    (hReleased : k.kQCefWebNotificationBody ≠ k.kQCefRenderContextReleased)
    (hEnvelope : k.kQCefWebNotificationBody ≠ k.kQCefRenderQtMessage) :
    (message.args.GetSize < 2 →
      OnProcessMessageReceived k fromJson self browser message = some (false, [])) ∧
    (message.args.GetSize = 2 →
      OnProcessMessageReceived k fromJson self browser message = some (true, [])) ∧
    (∀ d, message.args.get? 2 = some (CefValue.dictionary d) →
      OnProcessMessageReceived k fromJson self browser message = some (true, [])) ∧
    (message.args.GetSize > 2 → (∀ d, message.args.get? 2 ≠ some (CefValue.dictionary d)) →
      OnProcessMessageReceived k fromJson self browser message = none) := by
  rw [notification_branch k fromJson self tracked browser message hTracked hSame hName hCreated
    hReleased hEnvelope]
  refine ⟨fun hSize => by simp [hSize], fun hSize => by simp [hSize], fun d hd => ?_,
    fun hSize hd => ?_⟩
  · have hLt : 2 < message.args.length := by
      by_contra hge
      rw [List.get?_eq_none.mpr (Nat.le_of_not_lt hge)] at hd
      exact Option.noConfusion hd
    have hGt : message.args.GetSize > 2 := hLt
    have hNot : ¬ message.args.GetSize < 2 := by
      have : message.args.GetSize = message.args.length := rfl
      omega
    have hSome : message.args.GetDictionary 2 = some d := by
      simp only [CefListValue.GetDictionary, hd]
    simp [hNot, hGt, hSome]
  · have hNot : ¬ message.args.GetSize < 2 := by omega
    have hNone : message.args.GetDictionary 2 = none := by
      unfold CefListValue.GetDictionary
      split
      · next d hEq => exact absurd hEq (hd d)
      · rfl
    simp [hNot, hSize, hNone]

/-- Witness for C3: the tracked session A sends a notification whose third argument is the
integer 5. -/
theorem C3_notification_third_argument_witness :
    OnProcessMessageReceived sampleConsts sampleFromJson adapterTrackingA browserA
      ⟨"QCefWebNotificationBody",
        [CefValue.string "https://a.example", CefValue.string "hello", CefValue.int 5]⟩ = none :=
  (C3_notification_third_argument_not_dictionary sampleConsts sampleFromJson adapterTrackingA
    browserA browserA
    ⟨"QCefWebNotificationBody",
      [CefValue.string "https://a.example", CefValue.string "hello", CefValue.int 5]⟩
    rfl rfl rfl (by decide) (by decide) (by decide)).2.2.2 (by decide)
    (fun d h => by simp at h)

/-- C4, as stated, fails: while no handle is tracked, a render-context-created message from
session B is accepted and the page is told to create its transport channel. -/
theorem C4_counterexample_untracked_message_is_processed :
    freshAdapter.cef_browser_ = none ∧
    OnProcessMessageReceived sampleConsts sampleFromJson freshAdapter browserB
      ⟨"QCefRenderContextCreated", []⟩ =
      some (true, [Effect.createTransportChannel, Effect.renderContextCreated]) := by
  decide

/-- C4, amended: when a handle is tracked and the message comes from a session whose identifier
differs from the tracked one, the message, whatever its name and arguments, is answered false
and no call is made on the page. -/
theorem C4_foreign_session_rejected
    (k : ChannelConsts) (fromJson : String → QJsonDocument)
    (self : QCefClientHandlerDelegate) (tracked browser : CefBrowser)
    (message : CefProcessMessage)
    (hTracked : self.cef_browser_ = some tracked)
    (hOther : browser.identifier ≠ tracked.identifier) :
    OnProcessMessageReceived k fromJson self browser message = some (false, []) := by
  simp [OnProcessMessageReceived, foreignSession_other self tracked browser hTracked hOther]

/-- Witness of the amended C4: session B sends render-context-created while A is tracked. -/
theorem C4_foreign_session_rejected_witness :
    OnProcessMessageReceived sampleConsts sampleFromJson adapterTrackingA browserB
      ⟨"QCefRenderContextCreated", []⟩ = some (false, []) :=
  C4_foreign_session_rejected sampleConsts sampleFromJson adapterTrackingA browserA browserB
    ⟨"QCefRenderContextCreated", []⟩ rfl (by decide)

/-! ## Session lifecycle and session-scoped signals -/

/-- C5, where the code departs from it: with a tracked handle `OnBeforeClose` clears the handle
when the identifiers agree and leaves the adapter unchanged otherwise, but with no tracked handle it
dereferences the null handle and does not return. -/
theorem C5_OnBeforeClose_untracked_fails
    (self : QCefClientHandlerDelegate) (browser : CefBrowser) :
    (self.cef_browser_ = none → OnBeforeClose self browser = none) ∧
    (∀ tracked, self.cef_browser_ = some tracked →
      tracked.identifier = browser.identifier →
      OnBeforeClose self browser = some { self with cef_browser_ := none }) ∧
    (∀ tracked, self.cef_browser_ = some tracked →
      tracked.identifier ≠ browser.identifier →
      OnBeforeClose self browser = some self) := by
  refine ⟨fun h => ?_, fun tracked h hEq => ?_, fun tracked h hNe => ?_⟩
  · simp [OnBeforeClose, h]
  · simp [OnBeforeClose, h, hEq]
  · simp [OnBeforeClose, h, hNe]

/-- Witness for C5: session B closes while no handle is tracked. -/
theorem C5_OnBeforeClose_untracked_witness :
    OnBeforeClose freshAdapter browserB = none :=
  (C5_OnBeforeClose_untracked_fails freshAdapter browserB).1 rfl

/-- C6, where the code departs from it: without an Event Delegate `OnPreKeyEvent` and
`OnBeforeBrowse` answer false, `OnBeforeContextMenu` leaves adapter and native model as they are
and `OnBeforePopup` answers true while no handle is tracked, but with a tracked handle
`OnBeforePopup` dereferences the null delegate and does not return. -/
theorem C6_OnBeforePopup_without_delegate_fails
    (self : QCefClientHandlerDelegate) (web_page_ : QCefWebPage)
    (hNoDelegate : web_page_.getEventDelegate = none) :
    (∀ event, OnPreKeyEvent web_page_ event = false) ∧
    (∀ url is_redirect, OnBeforeBrowse web_page_ url is_redirect = false) ∧
    (∀ params model, OnBeforeContextMenu self web_page_ params model = (self, model)) ∧
    (∀ url disposition, self.cef_browser_ = none →
      OnBeforePopup self web_page_ url disposition = some true) ∧
    (∀ url disposition, self.cef_browser_ ≠ none →
      OnBeforePopup self web_page_ url disposition = none) := by
  refine ⟨fun event => ?_, fun url r => ?_, fun params model => ?_, fun url d h => ?_,
    fun url d h => ?_⟩
  · simp [OnPreKeyEvent, hNoDelegate]
  · simp [OnBeforeBrowse, hNoDelegate]
  · simp [OnBeforeContextMenu, hNoDelegate]
  · simp [OnBeforePopup, h]
  · simp [OnBeforePopup, h, hNoDelegate]

/-- Witness for C6: a popup is requested while session A is tracked and the page has no Event
Delegate. -/
theorem C6_OnBeforePopup_without_delegate_witness :
    OnBeforePopup adapterTrackingA pageWithoutDelegate "https://a.example/popup" 0 = none :=
  (C6_OnBeforePopup_without_delegate_fails adapterTrackingA pageWithoutDelegate rfl).2.2.2.2
    "https://a.example/popup" 0 (by decide)

/-- C7: `OnLoadStarted` emits `loadStarted` exactly once when a handle is tracked, the session
has the tracked identifier and the frame is that session's main frame, and emits nothing otherwise;
`OnLoadEnd`, `OnLoadError` and `OnGotFocus` forward nothing for a session that does not carry the
tracked identifier. Scenario: once session A has been created and adopted, load-started from a
session B with another identifier forwards nothing and load-started from A on its main frame
forwards `loadStarted` once. -/
theorem C7_session_scoped_signals
    (self : QCefClientHandlerDelegate) (web_page_ : QCefWebPage)
    (browser : CefBrowser) (frame : CefFrame) :
    (∀ tracked, self.cef_browser_ = some tracked →
      browser.identifier = tracked.identifier →
      frame.identifier = browser.mainFrame.identifier →
      OnLoadStarted self browser frame = [Effect.loadStarted]) ∧
    (¬ (∃ tracked, self.cef_browser_ = some tracked ∧
          browser.identifier = tracked.identifier ∧
          frame.identifier = browser.mainFrame.identifier) →
      OnLoadStarted self browser frame = []) ∧
    (¬ (∃ tracked, self.cef_browser_ = some tracked ∧
          browser.identifier = tracked.identifier) →
      (∀ status, OnLoadEnd self browser frame status = []) ∧
      (∀ code, (OnLoadError self web_page_ browser frame code).2 = []) ∧
      OnGotFocus self browser = []) ∧
    (∀ A B : CefBrowser, self.cef_browser_ = none → B.identifier ≠ A.identifier →
      (OnBrowserCreated self web_page_ A).1.cef_browser_ = some A ∧
      OnLoadStarted (OnBrowserCreated self web_page_ A).1 B frame = [] ∧
      OnLoadStarted (OnBrowserCreated self web_page_ A).1 A A.mainFrame =
        [Effect.loadStarted]) := by
  refine ⟨fun tracked h hId hFrame => ?_, fun hNot => ?_, fun hNot => ?_,
    fun A B hNone hNe => ?_⟩
  · simp [OnLoadStarted, h, hId, hFrame]
  · cases h : self.cef_browser_ with
    | none => simp [OnLoadStarted, h]
    | some tracked =>
      have hCond : ¬ (browser.identifier = tracked.identifier ∧
          browser.mainFrame.identifier = frame.identifier) :=
        fun hc => hNot ⟨tracked, h, hc.1, hc.2.symm⟩
      simp only [OnLoadStarted, h, if_neg hCond]
  · cases h : self.cef_browser_ with
    | none => simp [OnLoadEnd, OnLoadError, OnGotFocus, h]
    | some tracked =>
      have hId : browser.identifier ≠ tracked.identifier :=
        fun hc => hNot ⟨tracked, h, hc⟩
      simp [OnLoadEnd, OnLoadError, OnGotFocus, h, hId]
  · simp [OnBrowserCreated, OnLoadStarted, hNone, hNe]

/-- Witness of C7: session A is created on a fresh adapter, then B and A report load-started. -/
theorem C7_session_scoped_signals_witness :
    (OnBrowserCreated freshAdapter pageWithoutDelegate browserA).1.cef_browser_ = some browserA ∧
    OnLoadStarted (OnBrowserCreated freshAdapter pageWithoutDelegate browserA).1 browserB
      browserB.mainFrame = [] ∧
    OnLoadStarted (OnBrowserCreated freshAdapter pageWithoutDelegate browserA).1 browserA
      browserA.mainFrame = [Effect.loadStarted] :=
  (C7_session_scoped_signals freshAdapter pageWithoutDelegate browserB browserB.mainFrame).2.2.2
    browserA browserB rfl (by decide)

/-! ## The context menu -/

theorem lookup_filter_none (key : Int) (keep : Int × Callback → Bool) :
    ∀ m : List (Int × Callback), m.lookup key = none → (m.filter keep).lookup key = none := by
  intro m
  induction m with
  | nil => intro _; rfl
  | cons kv rest ih =>
    obtain ⟨k, v⟩ := kv
    intro h
    by_cases hk : key = k
    · subst hk
      simp [List.lookup] at h
    · have hb : (key == k) = false := by simpa using hk
      have hRest : rest.lookup key = none := by simpa [List.lookup, hb] using h
      by_cases hKeep : keep (k, v) = true
      · simp [List.filter, hKeep, List.lookup, hb, ih hRest]
      · simp [List.filter, hKeep, ih hRest]

theorem lookup_insert_none (m : List (Int × Callback)) (key k : Int) (v : Callback)
    (hk : key ≠ k) (h : m.lookup key = none) : (QMap.insert m k v).lookup key = none := by
  have hb : (key == k) = false := by simpa using hk
  simp [QMap.insert, List.lookup, hb, lookup_filter_none key _ m h]

/-- A command id that no call of the delegate registers is absent from the mapping afterwards,
provided it was absent before. -/
theorem populate_lookup_none (key : Int) :
    ∀ (ops : List MenuOp) (menu : QCefContextMenu), key ∉ registeredIds ops →
      menu.callbacks.lookup key = none → (populate menu ops).callbacks.lookup key = none := by
  intro ops
  induction ops with
  | nil => intro menu _ h; exact h
  | cons op rest ih =>
    intro menu hReg h
    cases op with
    | addItem id label callback =>
      have hne : key ≠ id := fun hc => hReg (by simp [registeredIds, hc])
      have hRest : key ∉ registeredIds rest := fun hc => hReg (by simp [registeredIds, hc])
      exact ih (menu.addItem id label callback) hRest
        (lookup_insert_none menu.callbacks key id callback hne h)
    | addSeparator =>
      have hRest : key ∉ registeredIds rest := fun hc => hReg (by simpa [registeredIds] using hc)
      exact ih menu.addSeparator hRest h
    | clear =>
      have hRest : key ∉ registeredIds rest := fun hc => hReg (by simpa [registeredIds] using hc)
      exact ih menu.clear hRest rfl

/-- The loop of `OnBeforeContextMenu` appends the native image of every entry, in order. -/
theorem foldl_addNative (items : List MenuItem) :
    ∀ model : CefMenuModel, items.foldl addNative model = model ++ items.map nativeImage := by
  induction items with
  | nil => intro model; simp
  | cons item rest ih =>
    intro model
    rw [List.foldl_cons, ih]
    cases hType : item.type <;>
      simp [addNative, nativeImage, hType, CefMenuModel.AddSeparator, CefMenuModel.AddItem]

/-- With an Event Delegate present, `OnBeforeContextMenu` leaves the menu the delegate builds
from an empty one, whatever the adapter held before. -/
theorem OnBeforeContextMenu_with_delegate (self : QCefClientHandlerDelegate)
    (web_page_ : QCefWebPage) (event_delegate : QCefBrowserEventDelegate)
    (params : CefContextMenuParams) (model : CefMenuModel)
    (hDelegate : web_page_.getEventDelegate = some event_delegate) :
    OnBeforeContextMenu self web_page_ params model =
      (⟨self.cef_browser_,
          some (populate QCefContextMenu.new (event_delegate.onBeforeContextMenu params))⟩,
        (populate QCefContextMenu.new (event_delegate.onBeforeContextMenu params)).items.map
          nativeImage) := by
  have hClear : ∀ menu : QCefContextMenu, menu.clear = QCefContextMenu.new := fun _ => rfl
  simp only [OnBeforeContextMenu, hDelegate, hClear, foldl_addNative, CefMenuModel.Clear,
    List.nil_append]

/-- C8: `OnContextMenuCommand` answers true and runs the callback registered for the command id,
on the page object, exactly when a context-menu object exists and its mapping holds that id;
otherwise it answers false and runs nothing. Scenario: after a request that the delegate fills
with item(1,"Copy"), a separator and item(2,"Paste"), command 2 runs the Paste callback and
answers true, command 3 answers false. -/
theorem C8_command_dispatch
    (self : QCefClientHandlerDelegate) (web_page_ : QCefWebPage) (command_id : Int) :
    (∀ menu cb, self.context_menu_ = some menu → menu.callbacks.lookup command_id = some cb →
      OnContextMenuCommand self web_page_ command_id =
        (true, [Effect.callback cb web_page_.address])) ∧
    (¬ (∃ menu cb, self.context_menu_ = some menu ∧
          menu.callbacks.lookup command_id = some cb) →
      OnContextMenuCommand self web_page_ command_id = (false, [])) ∧
    (∀ (event_delegate : QCefBrowserEventDelegate) (params : CefContextMenuParams)
        (model : CefMenuModel) (copy paste : Callback),
      web_page_.getEventDelegate = some event_delegate →
      event_delegate.onBeforeContextMenu params =
        [MenuOp.addItem 1 "Copy" copy, MenuOp.addSeparator, MenuOp.addItem 2 "Paste" paste] →
      OnContextMenuCommand (OnBeforeContextMenu self web_page_ params model).1 web_page_ 2 =
        (true, [Effect.callback paste web_page_.address]) ∧
      OnContextMenuCommand (OnBeforeContextMenu self web_page_ params model).1 web_page_ 3 =
        (false, [])) := by
  refine ⟨fun menu cb hMenu hCb => ?_, fun hNot => ?_,
    fun event_delegate params model copy paste hDelegate hOps => ?_⟩
  · simp [OnContextMenuCommand, hMenu, QMap.contains, QMap.value, hCb]
  · cases hMenu : self.context_menu_ with
    | none => simp [OnContextMenuCommand, hMenu]
    | some menu =>
      cases hCb : menu.callbacks.lookup command_id with
      | none => simp [OnContextMenuCommand, hMenu, QMap.contains, hCb]
      | some cb => exact absurd ⟨menu, cb, hMenu, hCb⟩ hNot
  · rw [OnBeforeContextMenu_with_delegate self web_page_ event_delegate params model hDelegate,
      hOps]
    constructor
    · simp [OnContextMenuCommand, populate, MenuOp.apply, QCefContextMenu.addItem,
        QCefContextMenu.addSeparator, QCefContextMenu.new, QMap.insert, QMap.contains,
        QMap.value, List.lookup]
    · simp [OnContextMenuCommand, populate, MenuOp.apply, QCefContextMenu.addItem,
        QCefContextMenu.addSeparator, QCefContextMenu.new, QMap.insert, QMap.contains,
        QMap.value, List.lookup]

/-- Witness of C8: the Copy/Paste delegate fills the menu of a fresh adapter; then commands 2
and 3 are invoked. -/
theorem C8_command_dispatch_witness :
    OnContextMenuCommand (OnBeforeContextMenu freshAdapter pageWithDelegate sampleParams []).1
      pageWithDelegate 2 = (true, [Effect.callback ⟨"Paste"⟩ 7]) ∧
    OnContextMenuCommand (OnBeforeContextMenu freshAdapter pageWithDelegate sampleParams []).1
      pageWithDelegate 3 = (false, []) :=
  (C8_command_dispatch freshAdapter pageWithDelegate 2).2.2 copyPasteDelegate sampleParams []
    ⟨"Copy"⟩ ⟨"Paste"⟩ rfl rfl

/-- C9, as stated, fails: the first request is filled by the Copy/Paste delegate, the second
arrives while the page has no Event Delegate; command 1, registered by the first request only,
still runs the Copy callback and is answered true. -/
theorem C9_counterexample_stale_id_without_delegate :
    1 ∈ registeredIds (copyPasteDelegate.onBeforeContextMenu sampleParams) ∧
    pageWithoutDelegate.getEventDelegate.isNone = true ∧
    OnContextMenuCommand
      (OnBeforeContextMenu
        (OnBeforeContextMenu freshAdapter pageWithDelegate sampleParams []).1
        pageWithoutDelegate sampleParams []).1
      pageWithoutDelegate 1 = (true, [Effect.callback ⟨"Copy"⟩ 7]) := by
  decide

/-- C9, amended: after two context-menu requests of which the second is made while an Event
Delegate is present, a command id that the second request's delegate did not register, whether or
not the first request registered it, runs no callback and is answered false. -/
theorem C9_stale_id_after_repopulation
    (self : QCefClientHandlerDelegate)
    (page1 page2 page3 : QCefWebPage) (params1 params2 : CefContextMenuParams)
    (model1 model2 : CefMenuModel) (second : QCefBrowserEventDelegate) (command_id : Int)
    (hDelegate : page2.getEventDelegate = some second)
    (hFresh : command_id ∉ registeredIds (second.onBeforeContextMenu params2)) :
    OnContextMenuCommand
      (OnBeforeContextMenu (OnBeforeContextMenu self page1 params1 model1).1
        page2 params2 model2).1
      page3 command_id = (false, []) := by
  rw [OnBeforeContextMenu_with_delegate _ page2 second params2 model2 hDelegate]
  have hNone := populate_lookup_none command_id (second.onBeforeContextMenu params2)
    QCefContextMenu.new hFresh rfl
  simp [OnContextMenuCommand, QMap.contains, hNone]

/-- Witness of the amended C9: the first request is filled by the Copy/Paste delegate, the
second by a delegate that offers Paste only; command 1 is then answered false. -/
theorem C9_stale_id_after_repopulation_witness :
    1 ∈ registeredIds (copyPasteDelegate.onBeforeContextMenu sampleParams) ∧
    OnContextMenuCommand
      (OnBeforeContextMenu
        (OnBeforeContextMenu freshAdapter pageWithDelegate sampleParams []).1
        { pageWithDelegate with getEventDelegate := some pasteOnlyDelegate } sampleParams []).1
      pageWithDelegate 1 = (false, []) :=
  ⟨by decide,
    C9_stale_id_after_repopulation freshAdapter pageWithDelegate
      { pageWithDelegate with getEventDelegate := some pasteOnlyDelegate } pageWithDelegate
      sampleParams sampleParams [] [] pasteOnlyDelegate 1 rfl (by decide)⟩

/-- C10: with an Event Delegate present, and whatever the native menu model held before, after
`OnBeforeContextMenu` the context-menu object exists, holds what the delegate built from an empty
menu, and the native model is the image of its entries, in order and of the same length: a
separator for each separator entry, an item with the same command id and label for each item
entry. -/
theorem C10_native_model_mirrors_menu
    (self : QCefClientHandlerDelegate) (web_page_ : QCefWebPage)
    (event_delegate : QCefBrowserEventDelegate) (params : CefContextMenuParams)
    (model : CefMenuModel)
    (hDelegate : web_page_.getEventDelegate = some event_delegate) :
    ∃ menu,
      (OnBeforeContextMenu self web_page_ params model).1.context_menu_ = some menu ∧
      menu = populate QCefContextMenu.new (event_delegate.onBeforeContextMenu params) ∧
      (OnBeforeContextMenu self web_page_ params model).2 = menu.items.map nativeImage ∧
      (OnBeforeContextMenu self web_page_ params model).2.length = menu.items.length := by
  rw [OnBeforeContextMenu_with_delegate self web_page_ event_delegate params model hDelegate]
  exact ⟨_, rfl, rfl, rfl, by simp⟩

/-- Witness of C10: the Copy/Paste delegate answers a request whose native model held one stale
entry. -/
theorem C10_native_model_mirrors_menu_witness :
    (OnBeforeContextMenu freshAdapter pageWithDelegate sampleParams
      [CefMenuEntry.item 99 "Back"]).2 =
      [CefMenuEntry.item 1 "Copy", CefMenuEntry.separator, CefMenuEntry.item 2 "Paste"] := by
  obtain ⟨menu, hMenu, hBuilt, hModel, _⟩ :=
    C10_native_model_mirrors_menu freshAdapter pageWithDelegate copyPasteDelegate sampleParams
      [CefMenuEntry.item 99 "Back"] rfl
  rw [hModel, hBuilt]
  decide

end QCef
